import Mathlib

/-!
Verification of the FicWorld simulation-orchestration engine.

This file gives a shallow embedding of the core of the repository
(`src/modules/relationship_manager.py`, `src/modules/models.py`,
`src/modules/world_agent.py`, `src/modules/memory.py`,
`src/modules/character_agent.py`) and proves properties of it.

Modelling conventions:
  * Python floats are modelled as rationals (`ℚ`).
  * Python dicts are modelled as association lists; a `frozenset` key of two
    character ids is modelled by an ordered pair looked up under either order.
  * A call to the external LLM generation service is modelled by an
    `Option String` (or `Option` of structured data) argument: `some r` is a
    successful response `r`, `none` is a raised service exception.
  * Python's `random.choice` / `random.random()` are modelled by explicit
    index / rational arguments.
  * A raised `ValueError` (the repository's invalid-argument failure) is
    modelled by `Except RelError`.
-/

namespace FicWorld

/-! ## String helpers modelling Python `str` operations -/

/-- Python `str.strip` with an explicit set of characters to remove from
both ends, on the underlying character list. -/
def pyStripP (p : Char → Bool) (s : String) : String :=
  ⟨((s.data.dropWhile p).reverse.dropWhile p).reverse⟩

/-- Python `s.strip()` (whitespace from both ends). -/
def pyStrip (s : String) : String :=
  pyStripP Char.isWhitespace s

/-- Python `s.strip('"\\\'')`: removes double quotes, backslashes and
apostrophes from both ends (character codes 34, 92, 39). -/
def stripQuoteChars (s : String) : String :=
  pyStripP (fun c => c == Char.ofNat 34 || c == Char.ofNat 92 || c == Char.ofNat 39) s

/-- Python `s.lower()` (ASCII lowering, which is all the source compares). -/
def lowerStr (s : String) : String :=
  ⟨s.data.map Char.toLower⟩

/-- Python's substring test `needle in hay` on character lists. -/
def containsSub (needle : List Char) : List Char → Bool
  | [] => needle.isEmpty
  | c :: t => needle.isPrefixOf (c :: t) || containsSub needle t

/-- Python `needle in hay` for strings. -/
def strContains (hay needle : String) : Bool :=
  containsSub needle.data hay.data

/-- Helper for `wordCount`: counts maximal non-whitespace runs. -/
def countWordsAux : List Char → Bool → Nat
  | [], _ => 0
  | c :: t, inWord =>
    if c.isWhitespace then countWordsAux t false
    else (if inWord then 0 else 1) + countWordsAux t true

/-- Python `len(s.split())`: the number of whitespace-separated words. -/
def wordCount (s : String) : Nat :=
  countWordsAux s.data false

/-- Python's slice `lst[-n:]` for a natural `n`: for `n = 0` this is the whole
list (`lst[-0:] == lst[0:]`), otherwise the last `n` elements (or all of them
when fewer than `n` exist). -/
def pyLastSlice (n : Nat) (l : List α) : List α :=
  if n = 0 then l else l.drop (l.length - n)

/-! ## Numeric clamps (`relationship_manager.py`, `models.py`) -/

/-- `min(1.0, max(0.0, q))`. -/
def clamp01 (q : ℚ) : ℚ := min 1 (max 0 q)

/-- `min(1.0, max(-1.0, q))`. -/
def clampPM1 (q : ℚ) : ℚ := min 1 (max (-1) q)

/-! ## MoodVector (`src/modules/models.py`, lines 9-26) -/

/-- Six bounded mood scalars. -/
structure MoodVector where
  joy : ℚ
  fear : ℚ
  anger : ℚ
  sadness : ℚ
  surprise : ℚ
  trust : ℚ
deriving DecidableEq

/-- `MoodVector.__post_init__`: every component outside `[0,1]` is replaced by
`max(0.0, min(1.0, value))`, which is the same as clamping every component. -/
def mkMoodVector (j f a s su t : ℚ) : MoodVector :=
  ⟨clamp01 j, clamp01 f, clamp01 a, clamp01 s, clamp01 su, clamp01 t⟩

/-- All six components lie inside `[0, 1]`. -/
def moodInRange (m : MoodVector) : Prop :=
  0 ≤ m.joy ∧ m.joy ≤ 1 ∧ 0 ≤ m.fear ∧ m.fear ≤ 1 ∧
  0 ≤ m.anger ∧ m.anger ≤ 1 ∧ 0 ≤ m.sadness ∧ m.sadness ≤ 1 ∧
  0 ≤ m.surprise ∧ m.surprise ≤ 1 ∧ 0 ≤ m.trust ∧ m.trust ≤ 1

instance (m : MoodVector) : Decidable (moodInRange m) := by
  unfold moodInRange; infer_instance

/-- A partial mood update as extracted from the service JSON in
`CharacterAgent.reflect` (`src/modules/character_agent.py`, lines 122-134):
`updated_mood_dict.get(key, prior)` keeps the prior component when the key is
absent. -/
structure MoodUpdate where
  joy : Option ℚ
  fear : Option ℚ
  anger : Option ℚ
  sadness : Option ℚ
  surprise : Option ℚ
  trust : Option ℚ

/-- The `MoodVector(...)` construction in `CharacterAgent.reflect`: each
component takes the update value when present, else the prior value, and the
`__post_init__` clamp is applied on construction. -/
def reflect_updated_mood (prior : MoodVector) (u : MoodUpdate) : MoodVector :=
  mkMoodVector (u.joy.getD prior.joy) (u.fear.getD prior.fear)
    (u.anger.getD prior.anger) (u.sadness.getD prior.sadness)
    (u.surprise.getD prior.surprise) (u.trust.getD prior.trust)

/-! ## RelationshipManager (`src/modules/relationship_manager.py`) -/

/-- `RelationshipState` (pydantic model): `trust` defaults to `0.5`,
`affinity` to `0.0`, `status` to `"neutral"`.  The pydantic field validators
(`ge`/`le` bounds) reject any out-of-range construction, so every stored
state satisfies `0 ≤ trust ≤ 1` and `-1 ≤ affinity ≤ 1`. -/
structure RelationshipState where
  trust : ℚ := 1/2
  affinity : ℚ := 0
  status : String := "neutral"
deriving DecidableEq

/-- The relationship store `_relationships`: a dict keyed by the frozenset of
two character ids, modelled as an association list whose pair key is looked up
under either component order. -/
abbrev RelMap := List ((String × String) × RelationshipState)

/-- Whether a stored pair key equals the frozenset `{a, b}` (for `a ≠ b`,
frozenset equality is equality up to order). -/
def keyMatches (k : String × String) (a b : String) : Bool :=
  (k.1 == a && k.2 == b) || (k.1 == b && k.2 == a)

/-- The failure taxonomy relevant here: `_get_relationship_key` raises
`ValueError` on a self-relationship, the repository's invalid-argument
failure. -/
inductive RelError where
  | invalidArgument
deriving DecidableEq

/-- `self._relationships.get(key, RelationshipState())`: the stored record for
the unordered pair, or a default-constructed one. -/
def lookupRel (m : RelMap) (a b : String) : RelationshipState :=
  ((m.find? (fun e => keyMatches e.1 a b)).map Prod.snd).getD {}

/-- Dict assignment `self._relationships[key] = v` for the unordered pair key:
replace the existing entry if present, else insert a new one. -/
def setRel (m : RelMap) (a b : String) (v : RelationshipState) : RelMap :=
  if m.any (fun e => keyMatches e.1 a b) then
    m.map (fun e => if keyMatches e.1 a b then (e.1, v) else e)
  else m ++ [((a, b), v)]

/-- `RelationshipManager.get_state` (lines 33-39): raises `ValueError` via
`_get_relationship_key` when `a == b`, else returns the stored record or a
default one (no mutation on lookup). -/
def get_state (m : RelMap) (a b : String) : Except RelError RelationshipState :=
  if a = b then .error .invalidArgument else .ok (lookupRel m a b)

/-- `RelationshipManager.adjust_state` (lines 49-77): raises `ValueError` when
`a == b`; otherwise reads the current (or default) record, adds the deltas,
clamps trust to `[0,1]` and affinity to `[-1,1]`, applies `new_status` when
given else keeps the prior status, writes the result back and returns it
(together with the updated store). -/
def adjust_state (m : RelMap) (a b : String) (trust_delta affinity_delta : ℚ)
    (new_status : Option String) : Except RelError (RelationshipState × RelMap) :=
  if a = b then .error .invalidArgument
  else
    let cur := lookupRel m a b
    let upd : RelationshipState :=
      { trust := clamp01 (cur.trust + trust_delta)
        affinity := clampPM1 (cur.affinity + affinity_delta)
        status := new_status.getD cur.status }
    .ok (upd, setRel m a b upd)

/-- The invariant maintained by the pydantic validators: every stored record
has trust in `[0,1]` and affinity in `[-1,1]`. -/
def WellFormedRel (m : RelMap) : Prop :=
  ∀ e ∈ m, 0 ≤ e.2.trust ∧ e.2.trust ≤ 1 ∧ -1 ≤ e.2.affinity ∧ e.2.affinity ≤ 1

/-! ## World model data (`src/modules/models.py`, `world_agent.py`) -/

/-- `CharacterState` (models.py, lines 135-142). -/
structure CharacterState where
  location : String
  current_mood : MoodVector
  conditions : List String
deriving DecidableEq

/-- The per-character static template read by `WorldAgent` from
`character_states_initial_template` (`persona`, `goals`,
`activity_coefficient` attributes). -/
structure CharTemplate where
  persona : String
  goals : List String
  activity_coefficient : ℚ

/-- `WorldState` (models.py, lines 156-167).  The source stores the scene id
as the string `"scene_{n}"`; since every id the engine writes has that shape,
the scene number is carried directly. -/
structure WorldState where
  scene_number : Nat
  turn_number : Nat
  time_of_day : String
  environment_description : String
  active_characters : List String
  character_states : List (String × CharacterState)
  recent_events : List String

/-- Dict lookup `character_states.get(name)`. -/
def lookupChar (cs : List (String × CharacterState)) (n : String) : Option CharacterState :=
  (cs.find? (fun e => e.1 == n)).map Prod.snd

/-- A scripted beat as accessed by `world_agent.py` through dict `.get` calls
(missing keys give `none`). -/
structure ScriptBeat where
  scene_id : Option Nat
  beat_id : Option String
  required_actor : Option String
  triggers_event : Option String

/-- A static world event as accessed through dict `.get` calls. -/
structure WorldEvent where
  event_id : Option String
  description : Option String

/-- The `WorldAgent`-owned fields that the modelled methods read and write,
apart from `world_state` itself.  `llm_present` models whether
`self.llm_interface` is truthy (checked by `generate_event`);
`completed_beats` (a Python set of beat ids) is modelled as a list. -/
structure AgentState where
  script_mode : Bool
  current_beat : Option ScriptBeat
  completed_beats : List String
  script_beats : List ScriptBeat
  world_events_pool : List WorldEvent
  llm_present : Bool
  max_scene_turns : Nat
  stagnation_threshold : Nat
  prev_token_counts : List (List Nat)
  recent_events_history_limit : Nat

/-! ## `WorldAgent.judge_scene_end` (world_agent.py, lines 111-214) -/

/-- Parsing of the scene-end / injection answers: the response is
`.strip().lower()`-ed, then the scene ends when it starts with `"yes"` or
contains `"yes"` within its first 10 characters. -/
def responseSaysYes (resp : String) : Bool :=
  let r := lowerStr (pyStrip resp)
  "yes".data.isPrefixOf r.data || containsSub "yes".data (r.data.take 10)

/-- One generator of `judge_scene_end`'s script check: a beat of the current
scene that is not yet completed (`beat.get('scene_id') == scene_number and
beat.get('beat_id') not in completed_beats`). -/
def beatPendingFor (completed : List String) (n : Nat) (b : ScriptBeat) : Bool :=
  (b.scene_id == some n) &&
    (match b.beat_id with
     | some bid => !(completed.contains bid)
     | none => true)

/-- The script-mode early exit of `judge_scene_end` (lines 122-135): in script
mode, with no current beat, a non-empty beat list, and no pending beat for the
current scene, the scene ends. -/
def script_scene_done (ag : AgentState) (sceneNumber : Nat) : Bool :=
  ag.script_mode && ag.current_beat.isNone && !ag.script_beats.isEmpty &&
    !(ag.script_beats.any (beatPendingFor ag.completed_beats sceneNumber))

/-- `WorldAgent.judge_scene_end`: the scene log is the list of the entries'
`outcome` strings; `svc` is the LLM judgement call.  Returns the decision and
the updated agent state (the stagnation counter `previous_token_counts` is
mutated on the fallback path). -/
def judge_scene_end (ag : AgentState) (ws : WorldState) (sceneLog : List String)
    (svc : Option String) : Bool × AgentState :=
  if script_scene_done ag ws.scene_number then (true, ag)
  else if ag.max_scene_turns ≤ ws.turn_number then (true, ag)
  else if sceneLog.length < 3 then (false, ag)
  else
    match svc with
    | some resp => (responseSaysYes resp, ag)
    | none =>
      let recentTokens := (pyLastSlice 3 sceneLog).map wordCount
      if recentTokens.all (fun c => c < 5) then (true, ag)
      else
        let diffs := (recentTokens.zip recentTokens.tail).map
          (fun p => max p.1 p.2 - min p.1 p.2)
        if diffs.all (fun d => d < 3) then
          let ag2 := { ag with prev_token_counts := ag.prev_token_counts ++ [diffs] }
          if ag.stagnation_threshold ≤ ag2.prev_token_counts.length then (true, ag2)
          else (false, ag2)
        else (false, { ag with prev_token_counts := [] })

/-! ## `WorldAgent.generate_event` (world_agent.py, lines 852-957) -/

/-- `event_desc if event_desc else fallback`: a missing or empty description
falls back to the given default sentence. -/
def desc_or (d : Option String) (fallback : String) : String :=
  match d with
  | some s => if s = "" then fallback else s
  | none => fallback

/-- Approach 1 of `generate_event`: in script mode, with a current beat that
triggers an event found in the (non-empty) static pool, return its
description, mark the beat id completed and clear the current beat.  When the
event id is not in the pool (or the pool is empty) fall through with no state
change. -/
def scripted_event (ag : AgentState) : Option (String × AgentState) :=
  if ag.script_mode then
    match ag.current_beat with
    | some beat =>
      match beat.triggers_event with
      | some eid =>
        if ag.world_events_pool.isEmpty then none
        else
          match ag.world_events_pool.find? (fun e => e.event_id == some eid) with
          | some ev =>
            some (desc_or ev.description "Something happens.",
              { ag with
                completed_beats :=
                  match beat.beat_id with
                  | some bid => ag.completed_beats ++ [bid]
                  | none => ag.completed_beats
                current_beat := none })
          | none => none
      | none => none
    | none => none
  else none

/-- The hardcoded generic fallback events used when no LLM is configured. -/
def fallback_events : List String :=
  ["A cool breeze blows through the area.",
   "Distant sounds can be heard from somewhere nearby.",
   "The lighting changes subtly, casting new shadows.",
   "There's a momentary silence that feels significant.",
   "Something catches the eye at the edge of vision, then vanishes."]

/-- `WorldAgent.generate_event`: scripted triggered event first; else a random
pool pick (index `poolIdx`); else the LLM (returning its response stripped of
whitespace and quotes, or a fixed atmospheric sentence when the call raises);
else a random pick from `fallback_events` (index `fallbackIdx`). -/
def generate_event (ag : AgentState) (svc : Option String) (poolIdx fallbackIdx : Nat) :
    String × AgentState :=
  match scripted_event ag with
  | some r => r
  | none =>
    if !ag.world_events_pool.isEmpty then
      let ev := (ag.world_events_pool.get? (poolIdx % ag.world_events_pool.length)).getD
        ⟨none, none⟩
      (desc_or ev.description "Something unexpected happens.", ag)
    else if ag.llm_present then
      match svc with
      | some resp => (stripQuoteChars (pyStrip resp), ag)
      | none => ("The environment shifts slightly, creating an unusual atmosphere.", ag)
    else
      ((fallback_events.get? (fallbackIdx % fallback_events.length)).getD "", ag)

/-! ## Actor / POV selection (world_agent.py, lines 216-546) -/

/-- Name matching against the LLM response: exact case-insensitive match
first, else the first active name contained (case-insensitively) in the
response. -/
def matchCharacter (active : List String) (resp : String) : Option String :=
  let r := lowerStr (pyStrip resp)
  match active.find? (fun c => lowerStr c == r) with
  | some c => some c
  | none => active.find? (fun c => containsSub (lowerStr c).data r.data)

/-- The activity coefficient used as a selection weight (default `1.0` when
the character has no template entry). -/
def activityWeight (tmpl : List (String × CharTemplate)) (c : String) : ℚ :=
  match (tmpl.find? (fun e => e.1 == c)).map Prod.snd with
  | some t => t.activity_coefficient
  | none => 1

/-- The sum of the active characters' activity weights (the normalisation
divisor of the roulette selection). -/
def total_activity_weight (tmpl : List (String × CharTemplate)) (active : List String) : ℚ :=
  (active.map (activityWeight tmpl)).sum

/-- Cumulative-weight roulette walk: the first character whose cumulative
normalised weight reaches the draw `r`. -/
def rouletteGo (r : ℚ) (cum : ℚ) : List (String × ℚ) → Option String
  | [] => none
  | p :: rest => if r ≤ cum + p.2 then some p.1 else rouletteGo r (cum + p.2) rest

/-- The weighted-random fallback of `decide_next_actor` (used identically on
"no match" and on service failure): normalise the activity weights to sum 1
and run the roulette with draw `r`, defaulting to the first active character.
A zero total weight makes the Python normalisation raise `ZeroDivisionError`,
modelled as `none`. -/
def weighted_fallback (active : List String) (tmpl : List (String × CharTemplate))
    (r : ℚ) : Option String :=
  match active with
  | [] => none
  | a0 :: _ =>
    let total := total_activity_weight tmpl active
    if total = 0 then none
    else
      some ((rouletteGo r 0 (active.map (fun c => (c, activityWeight tmpl c / total)))).getD a0)

/-- The script-mode branch of `decide_next_actor` (lines 380-384): the current
beat's required actor, provided it is active. -/
def scripted_required_actor (ag : AgentState) (active : List String) : Option String :=
  if ag.script_mode then
    match ag.current_beat with
    | some beat =>
      match beat.required_actor with
      | some ra => if active.contains ra then some ra else none
      | none => none
    | none => none
  else none

/-- `WorldAgent.decide_next_actor` (lines 359-546): `none, none` when no
character is active; the scripted required actor when applicable; else the LLM
pick (exact, then substring match), with the weighted-random fallback on no
match or on service failure. -/
def decide_next_actor (ag : AgentState) (ws : WorldState)
    (tmpl : List (String × CharTemplate)) (svc : Option String) (r : ℚ) :
    Option (String × Option CharacterState) :=
  let active := ws.active_characters
  if active.isEmpty then none
  else
    match scripted_required_actor ag active with
    | some ra => some (ra, lookupChar ws.character_states ra)
    | none =>
      let selected : Option String :=
        match svc with
        | some resp =>
          match matchCharacter active resp with
          | some c => some c
          | none => weighted_fallback active tmpl r
        | none => weighted_fallback active tmpl r
      match selected with
      | some c => some (c, lookupChar ws.character_states c)
      | none => none

/-- The POV info dict built by `choose_pov_character_for_scene`. -/
structure PovInfo where
  persona : String
  goals : List String
  current_mood : MoodVector
deriving DecidableEq

/-- `MoodVector()` with all defaults (all six fields `0.0`). -/
def zeroMood : MoodVector := ⟨0, 0, 0, 0, 0, 0⟩

/-- The fixed sentinel returned when no character is active. -/
def narrator_pov : String × PovInfo :=
  ("Narrator", ⟨"Objective observer", [], zeroMood⟩)

/-- The POV info for a selected character: persona and goals from the initial
template (empty defaults), mood from the current character state
(`MoodVector()` default). -/
def pov_info_for (tmpl : List (String × CharTemplate))
    (cs : List (String × CharacterState)) (c : String) : PovInfo :=
  { persona := (((tmpl.find? (fun e => e.1 == c)).map Prod.snd).map CharTemplate.persona).getD ""
    goals := (((tmpl.find? (fun e => e.1 == c)).map Prod.snd).map CharTemplate.goals).getD []
    current_mood := ((lookupChar cs c).map CharacterState.current_mood).getD zeroMood }

/-- `WorldAgent.choose_pov_character_for_scene` (lines 216-357): the Narrator
sentinel when no character is active; else the LLM pick (exact, then
substring match, defaulting to the first active character), with a uniform
random active character (index `idx`) on service failure. -/
def choose_pov_character_for_scene (active : List String)
    (tmpl : List (String × CharTemplate)) (cs : List (String × CharacterState))
    (svc : Option String) (idx : Nat) : String × PovInfo :=
  match active with
  | [] => narrator_pov
  | a0 :: _ =>
    match svc with
    | some resp =>
      let c := (matchCharacter active resp).getD a0
      (c, pov_info_for tmpl cs c)
    | none =>
      let c := (active.get? (idx % active.length)).getD a0
      (c, pov_info_for tmpl cs c)

/-! ## `WorldAgent.apply_plan` and the relationship heuristic
(world_agent.py, lines 548-770) -/

/-- A character plan (`CharacterPlanOutput`): the modelled plans carry string
detail values, which is all the target extraction reads (non-string detail
values never produce a target and are otherwise only echoed into prompts). -/
structure Plan where
  action : String
  details : List (String × String)
  tone_of_action : String

/-- The detail keys probed for a target character, in source order. -/
def target_char_keys : List String :=
  ["target_char_id", "target_character", "recipient", "target"]

/-- Dict lookup `details.get(key)`. -/
def lookupDetail (details : List (String × String)) (k : String) : Option String :=
  (details.find? (fun e => e.1 == k)).map Prod.snd

/-- The target-extraction loop of `apply_plan` (lines 732-739): the first key
holding a truthy (non-empty) string stops the search; the value counts as a
target only when it names an existing character state. -/
def findTargetGo (details : List (String × String))
    (cs : List (String × CharacterState)) : List String → Option String
  | [] => none
  | k :: rest =>
    match lookupDetail details k with
    | some v =>
      if v = "" then findTargetGo details cs rest
      else if (cs.find? (fun e => e.1 == v)).isSome then some v else none
    | none => findTargetGo details cs rest

/-- The target character named by the plan details, if any. -/
def findTarget (details : List (String × String))
    (cs : List (String × CharacterState)) : Option String :=
  findTargetGo details cs target_char_keys

/-- Keyword lists of `_interpret_outcome_for_relationship_update`. -/
def positive_verbs : List String :=
  ["helps", "thanks", "praises", "agrees with", "comforts", "saves"]

/-- Negative-interaction keywords. -/
def negative_verbs : List String :=
  ["attacks", "insults", "threatens", "accuses", "ignores", "betrays"]

/-- One relationship adjustment produced by the outcome heuristic. -/
structure RelAdjustment where
  char_a : String
  char_b : String
  trust_delta : ℚ
  affinity_delta : ℚ
deriving DecidableEq

/-- `WorldAgent._interpret_outcome_for_relationship_update` (lines 548-617):
keyword polarity of the lowercased outcome picks the trust and affinity
deltas (positive `+0.05, +0.02`; negative `-0.1, -0.05`; disagreement
`-0.02, -0.01`); when the deltas are non-zero, the actor-to-target adjustment
is emitted together with the reverse one at 80% magnitude. -/
def interpret_outcome_for_relationship_update (actor : String) (factual_outcome : String)
    (involved : List String) : List RelAdjustment :=
  if involved.length < 2 then []
  else
    let ol := lowerStr factual_outcome
    let d : ℚ × ℚ :=
      if positive_verbs.any (fun v => strContains ol v) then (1/20, 1/50)
      else if negative_verbs.any (fun v => strContains ol v) then (-(1/10), -(1/20))
      else if strContains ol "disagrees with" then (-(1/50), -(1/100))
      else (0, 0)
    if d.1 ≠ 0 ∨ d.2 ≠ 0 then
      match involved.find? (fun c => c != actor) with
      | some target =>
        [⟨actor, target, d.1, d.2⟩,
         ⟨target, actor, d.1 * (4/5), d.2 * (4/5)⟩]
      | none => []
    else []

/-- The adjustment-application loop of `apply_plan` (lines 750-763): each
adjustment with truthy endpoint names is applied through
`relationship_manager.adjust_state` (no status).  The error case cannot arise
for heuristic-generated adjustments, whose endpoints are distinct; it is
skipped here. -/
def applyAdjustments (m : RelMap) : List RelAdjustment → RelMap
  | [] => m
  | adj :: rest =>
    if adj.char_a ≠ "" ∧ adj.char_b ≠ "" then
      match adjust_state m adj.char_a adj.char_b adj.trust_delta adj.affinity_delta none with
      | .ok (_, m2) => applyAdjustments m2 rest
      | .error _ => applyAdjustments m rest
    else applyAdjustments m rest

/-- `WorldAgent.apply_plan` (lines 619-770): increments the turn counter, then
asks the service for a factual outcome.  On success the response is stripped
of whitespace and surrounding quotes, the relationship heuristic runs when the
plan names a distinct existing target, and the outcome is returned.  On
service failure the fallback sentence `"{actor} attempts to {action}."` is
returned with no relationship change.  Returns
`(outcome, world state, relationship store)`. -/
def apply_plan (actor : String) (plan : Plan) (ws : WorldState) (rel : RelMap)
    (svc : Option String) : String × WorldState × RelMap :=
  let ws2 := { ws with turn_number := ws.turn_number + 1 }
  match svc with
  | none => (actor ++ " attempts to " ++ plan.action ++ ".", ws2, rel)
  | some resp =>
    let factual_outcome := stripQuoteChars (pyStrip resp)
    let involved : List String :=
      match findTarget plan.details ws.character_states with
      | some t => if t = actor then [actor] else [actor, t]
      | none => [actor]
    let rel2 :=
      if 2 ≤ involved.length then
        applyAdjustments rel
          (interpret_outcome_for_relationship_update actor factual_outcome involved)
      else rel
    (factual_outcome, ws2, rel2)

/-! ## `WorldAgent.update_from_outcome` (world_agent.py, lines 959-1052) -/

/-- The structured state changes the service is asked to extract. -/
structure StateChanges where
  location_changes : List (String × String)
  condition_changes : List (String × List String)
  time_change : Option String

/-- Condition merge: new conditions are appended unless already present. -/
def addConditions (existing newConds : List String) : List String :=
  newConds.foldl (fun acc c => if acc.contains c then acc else acc ++ [c]) existing

/-- Application of one location change (ignored for unknown characters). -/
def applyLocationChange (cs : List (String × CharacterState)) (n loc : String) :
    List (String × CharacterState) :=
  if (cs.find? (fun e => e.1 == n)).isSome then
    cs.map (fun e => if e.1 == n then (e.1, { e.2 with location := loc }) else e)
  else cs

/-- Application of one condition change (ignored for unknown characters). -/
def applyConditionChange (cs : List (String × CharacterState)) (n : String)
    (conds : List String) : List (String × CharacterState) :=
  if (cs.find? (fun e => e.1 == n)).isSome then
    cs.map (fun e => if e.1 == n then (e.1, { e.2 with conditions := addConditions e.2.conditions conds }) else e)
  else cs

/-- `WorldAgent.update_from_outcome`: appends the outcome to
`recent_events_summary`, trims the list to the history limit (the Python
slice `[-limit:]`, which trims nothing when the limit is 0), then applies any
structured changes extracted by the service; a failed call or unparseable
response (`extracted = none`) is swallowed and only the append remains. -/
def update_from_outcome (ws : WorldState) (limit : Nat) (factual_outcome : String)
    (extracted : Option StateChanges) : WorldState :=
  let events := ws.recent_events ++ [factual_outcome]
  let events := if limit < events.length then pyLastSlice limit events else events
  let ws2 := { ws with recent_events := events }
  match extracted with
  | none => ws2
  | some ch =>
    let cs := ch.location_changes.foldl (fun acc p => applyLocationChange acc p.1 p.2)
      ws2.character_states
    let cs := ch.condition_changes.foldl (fun acc p => applyConditionChange acc p.1 p.2) cs
    { ws2 with
      character_states := cs
      time_of_day := ch.time_change.getD ws2.time_of_day }

/-! ## `WorldAgent.update_character_mood` (world_agent.py, lines 1078-1092) -/

/-- `WorldAgent.update_character_mood`: replaces the character's mood when the
character exists in `world_state.character_states`, else silently does
nothing. -/
def update_character_mood (ws : WorldState) (actor : String) (mood : MoodVector) :
    WorldState :=
  if (ws.character_states.find? (fun e => e.1 == actor)).isSome then
    { ws with
      character_states := ws.character_states.map
        (fun e => if e.1 == actor then (e.1, { e.2 with current_mood := mood }) else e) }
  else ws

/-! ## Memory store: recent scene summaries -/

/-- The sentinel used when no summaries can be returned (the string asserted
by `tests/test_memory_manager_v1.py`). -/
def noSummariesSentinel : String := "No scene summaries are available yet."

/-- The per-summary tag line: the summary prefixed by its scene number. -/
def tagSceneSummary (p : Nat × String) : String :=
  "Summary of Scene " ++ toString p.1 ++ ":\n" ++ p.2

/-- Modelled from the spec: `MemoryManager.get_recent_scene_summaries` is
called by `src/main.py` and exercised by `tests/test_memory_manager_v1.py`,
but the revision of the memory module under `src/modules/memory.py` does not
define it (main.py imports it from a `modules.memory_manager` module that is
absent from src).  Per the spec, it "returns the last `count` summaries
oldest-first, each tagged with its scene number, joined with a visible
separator; returns a sentinel string when zero summaries exist or
`count == 0`".  The stored summaries are the `scene_summaries` dict keyed by
scene number, modelled as a list in ascending scene order; the sentinel, tag
and separator strings follow the repository's test expectations. -/
def get_recent_scene_summaries (summaries : List (Nat × String)) (count : Nat := 3) :
    String :=
  if summaries.isEmpty || count == 0 then noSummariesSentinel
  else String.intercalate "\n\n---\n\n" ((pyLastSlice count summaries).map tagSceneSummary)

/-! ## Helper lemmas -/

theorem find?_congr {α : Type} (p q : α → Bool) (h : ∀ x, p x = q x) :
    ∀ l : List α, l.find? p = l.find? q := by
  intro l
  induction l with
  | nil => rfl
  | cons a t ih =>
    simp only [List.find?]
    rw [h a]
    cases q a <;> simp [ih]

theorem keyMatches_symm (k : String × String) (a b : String) :
    keyMatches k a b = keyMatches k b a := by
  simp only [keyMatches]
  exact Bool.or_comm _ _

theorem keyMatches_self (a b : String) : keyMatches (a, b) a b = true := by
  simp [keyMatches]

theorem lookupRel_symm (m : RelMap) (a b : String) :
    lookupRel m a b = lookupRel m b a := by
  unfold lookupRel
  rw [find?_congr _ _ (fun e => keyMatches_symm e.1 a b) m]

theorem find?_append_none {α : Type} {p : α → Bool} {l₁ : List α} (l₂ : List α)
    (h : l₁.find? p = none) : (l₁ ++ l₂).find? p = l₂.find? p := by
  induction l₁ with
  | nil => rfl
  | cons a t ih =>
    simp only [List.find?] at h ⊢
    cases hp : p a
    · simp only [hp] at h ⊢
      exact ih h
    · simp [hp] at h

theorem any_false_find?_none {α : Type} {p : α → Bool} {l : List α}
    (h : l.any p = false) : l.find? p = none := by
  induction l with
  | nil => rfl
  | cons a t ih =>
    simp only [List.any_cons, Bool.or_eq_false_iff] at h
    simp only [List.find?, h.1]
    exact ih h.2

theorem lookupRel_map_replace (a b : String) (v : RelationshipState) :
    ∀ m : RelMap, m.any (fun e => keyMatches e.1 a b) = true →
      lookupRel (m.map (fun e => if keyMatches e.1 a b then (e.1, v) else e)) a b = v := by
  intro m
  induction m with
  | nil => intro h; simp at h
  | cons e t ih =>
    intro h
    cases he : keyMatches e.1 a b with
    | true =>
      have hhead : (if keyMatches e.1 a b then (e.1, v) else e) = (e.1, v) := by
        rw [he]; simp
      unfold lookupRel
      rw [List.map_cons, hhead, List.find?_cons_of_pos _ (by simpa using he)]
      rfl
    | false =>
      have ht : t.any (fun e => keyMatches e.1 a b) = true := by
        simp only [List.any_cons, he, Bool.false_or] at h
        exact h
      have hhead : (if keyMatches e.1 a b then (e.1, v) else e) = e := by
        rw [he]; simp
      unfold lookupRel at ih ⊢
      rw [List.map_cons, hhead, List.find?_cons_of_neg _ (by simp [he])]
      exact ih ht

theorem lookupRel_set_same (m : RelMap) (a b : String) (v : RelationshipState) :
    lookupRel (setRel m a b v) a b = v := by
  unfold setRel
  by_cases h : m.any (fun e => keyMatches e.1 a b) = true
  · rw [if_pos h]
    exact lookupRel_map_replace a b v m h
  · rw [if_neg h]
    have hn : m.find? (fun e => keyMatches e.1 a b) = none :=
      any_false_find?_none (by simpa using h)
    unfold lookupRel
    rw [find?_append_none _ hn]
    simp [List.find?, keyMatches_self]

theorem lookupRel_set_swap (m : RelMap) (a b : String) (v : RelationshipState) :
    lookupRel (setRel m a b v) b a = v := by
  rw [← lookupRel_symm]
  exact lookupRel_set_same m a b v

theorem lookupRel_range {m : RelMap} (hwf : WellFormedRel m) (a b : String) :
    0 ≤ (lookupRel m a b).trust ∧ (lookupRel m a b).trust ≤ 1 ∧
    -1 ≤ (lookupRel m a b).affinity ∧ (lookupRel m a b).affinity ≤ 1 := by
  unfold lookupRel
  cases hf : m.find? (fun e => keyMatches e.1 a b) with
  | none =>
    simp only [Option.map_none', Option.getD_none]
    refine ⟨by norm_num, by norm_num, by norm_num, by norm_num⟩
  | some e =>
    have hm : e ∈ m := List.mem_of_find?_eq_some hf
    simpa using hwf e hm

theorem clamp01_nonneg (q : ℚ) : 0 ≤ clamp01 q :=
  le_min (by norm_num) (le_max_left 0 q)

theorem clamp01_le_one (q : ℚ) : clamp01 q ≤ 1 :=
  min_le_left 1 _

theorem clamp01_of_mem {q : ℚ} (h0 : 0 ≤ q) (h1 : q ≤ 1) : clamp01 q = q := by
  unfold clamp01
  rw [max_eq_right h0, min_eq_right h1]

theorem clampPM1_nonneg (q : ℚ) : -1 ≤ clampPM1 q :=
  le_min (by norm_num) (le_max_left (-1) q)

theorem clampPM1_le_one (q : ℚ) : clampPM1 q ≤ 1 :=
  min_le_left 1 _

theorem clampPM1_of_mem {q : ℚ} (h0 : -1 ≤ q) (h1 : q ≤ 1) : clampPM1 q = q := by
  unfold clampPM1
  rw [max_eq_right h0, min_eq_right h1]

theorem mkMoodVector_range (j f a s su t : ℚ) : moodInRange (mkMoodVector j f a s su t) :=
  ⟨clamp01_nonneg j, clamp01_le_one j, clamp01_nonneg f, clamp01_le_one f,
   clamp01_nonneg a, clamp01_le_one a, clamp01_nonneg s, clamp01_le_one s,
   clamp01_nonneg su, clamp01_le_one su, clamp01_nonneg t, clamp01_le_one t⟩

/-! ## Claim theorems -/

/-- C7: for all distinct character ids `a` and `b`, all deltas and optional
status, `adjust_state` reads the current record (or the default one if
absent), adds the deltas, clamps trust to `[0,1]` and affinity to `[-1,1]`,
applies the new status if provided and otherwise keeps the prior status,
writes the result back (so a subsequent `get_state` returns it) and returns
it; and calling it with zero deltas and no status leaves the stored
relationship state (as observed by `lookupRel` / `get_state`) unchanged. -/
theorem C7_adjust_state_contract :
    (∀ (m : RelMap) (a b : String) (td ad : ℚ) (ns : Option String),
      a ≠ b → WellFormedRel m →
      ∃ r m2, adjust_state m a b td ad ns = .ok (r, m2) ∧
        r.trust = clamp01 ((lookupRel m a b).trust + td) ∧
        r.affinity = clampPM1 ((lookupRel m a b).affinity + ad) ∧
        r.status = ns.getD (lookupRel m a b).status ∧
        get_state m2 a b = .ok r) ∧
    (∀ (m : RelMap) (a b : String), a ≠ b → WellFormedRel m →
      ∃ r m2, adjust_state m a b 0 0 none = .ok (r, m2) ∧
        r = lookupRel m a b ∧
        lookupRel m2 a b = lookupRel m a b) := by
  constructor
  · intro m a b td ad ns hab hwf
    refine ⟨⟨clamp01 ((lookupRel m a b).trust + td),
             clampPM1 ((lookupRel m a b).affinity + ad),
             ns.getD (lookupRel m a b).status⟩,
            setRel m a b ⟨clamp01 ((lookupRel m a b).trust + td),
             clampPM1 ((lookupRel m a b).affinity + ad),
             ns.getD (lookupRel m a b).status⟩, ?_, rfl, rfl, rfl, ?_⟩
    · simp [adjust_state, hab]
    · unfold get_state
      rw [if_neg hab, lookupRel_set_same]
  · intro m a b hab hwf
    obtain ⟨ht0, ht1, ha0, ha1⟩ := lookupRel_range hwf a b
    have hr : (⟨clamp01 ((lookupRel m a b).trust + 0),
               clampPM1 ((lookupRel m a b).affinity + 0),
               (none : Option String).getD (lookupRel m a b).status⟩ :
        RelationshipState) = lookupRel m a b := by
      simp only [add_zero, Option.getD_none]
      rw [clamp01_of_mem ht0 ht1, clampPM1_of_mem ha0 ha1]
    refine ⟨lookupRel m a b, setRel m a b (lookupRel m a b), ?_, rfl, ?_⟩
    · have h1 : adjust_state m a b 0 0 none =
          .ok (⟨clamp01 ((lookupRel m a b).trust + 0),
                clampPM1 ((lookupRel m a b).affinity + 0),
                (none : Option String).getD (lookupRel m a b).status⟩,
               setRel m a b ⟨clamp01 ((lookupRel m a b).trust + 0),
                clampPM1 ((lookupRel m a b).affinity + 0),
                (none : Option String).getD (lookupRel m a b).status⟩) := by
        simp [adjust_state, hab]
      rw [h1, hr]
    · rw [lookupRel_set_same]

/-- Witness for C7 at concrete inputs: a fresh store with deltas and a status,
and a one-entry store with zero deltas and no status. -/
theorem C7_adjust_state_contract_witness :
    (∃ r m2, adjust_state [] "Alice" "Bob" (1/4) (-(1/4)) (some "friends") = .ok (r, m2) ∧
      r.trust = clamp01 ((lookupRel [] "Alice" "Bob").trust + 1/4) ∧
      r.affinity = clampPM1 ((lookupRel [] "Alice" "Bob").affinity + -(1/4)) ∧
      r.status = (some "friends").getD (lookupRel [] "Alice" "Bob").status ∧
      get_state m2 "Alice" "Bob" = .ok r) ∧
    (∃ r m2, adjust_state [(("Alice", "Bob"), ⟨3/4, 1/2, "allies"⟩)] "Alice" "Bob" 0 0 none =
        .ok (r, m2) ∧
      r = lookupRel [(("Alice", "Bob"), ⟨3/4, 1/2, "allies"⟩)] "Alice" "Bob" ∧
      lookupRel m2 "Alice" "Bob" =
        lookupRel [(("Alice", "Bob"), ⟨3/4, 1/2, "allies"⟩)] "Alice" "Bob") :=
  ⟨C7_adjust_state_contract.1 [] "Alice" "Bob" (1/4) (-(1/4)) (some "friends")
      (by decide) (by intro e he; simp at he),
   C7_adjust_state_contract.2 [(("Alice", "Bob"), ⟨3/4, 1/2, "allies"⟩)] "Alice" "Bob"
      (by decide) (by intro e he; simp at he; rw [he]; norm_num)⟩

/-- C8: for all pairs of ids, `get_state (a, b)` and `get_state (b, a)` return
the same relationship record, and for every id `x`, both `get_state (x, x)`
and `adjust_state (x, x, ...)` fail with the invalid-argument error (the
`ValueError` raised by `_get_relationship_key`). -/
theorem C8_symmetry_and_self :
    (∀ (m : RelMap) (a b : String), get_state m a b = get_state m b a) ∧
    (∀ (m : RelMap) (x : String), get_state m x x = .error .invalidArgument) ∧
    (∀ (m : RelMap) (x : String) (td ad : ℚ) (ns : Option String),
      adjust_state m x x td ad ns = .error .invalidArgument) := by
  refine ⟨?_, ?_, ?_⟩
  · intro m a b
    by_cases h : a = b
    · subst h; rfl
    · unfold get_state
      rw [if_neg h, if_neg (fun hba => h hba.symm), lookupRel_symm]
  · intro m x
    simp [get_state]
  · intro m x td ad ns
    simp [adjust_state]

/-- C9: moods are clamped to `[0,1]` on construction and on every update, and
a partial update (the `reflect` mood reconstruction) leaves every unspecified
component equal to its prior value. -/
theorem C9_mood_clamped_partial_update :
    (∀ j f a s su t : ℚ, moodInRange (mkMoodVector j f a s su t)) ∧
    (∀ (prior : MoodVector) (u : MoodUpdate), moodInRange prior →
      moodInRange (reflect_updated_mood prior u) ∧
      (u.joy = none → (reflect_updated_mood prior u).joy = prior.joy) ∧
      (u.fear = none → (reflect_updated_mood prior u).fear = prior.fear) ∧
      (u.anger = none → (reflect_updated_mood prior u).anger = prior.anger) ∧
      (u.sadness = none → (reflect_updated_mood prior u).sadness = prior.sadness) ∧
      (u.surprise = none → (reflect_updated_mood prior u).surprise = prior.surprise) ∧
      (u.trust = none → (reflect_updated_mood prior u).trust = prior.trust)) := by
  constructor
  · exact mkMoodVector_range
  · intro prior u hp
    obtain ⟨h1, h2, h3, h4, h5, h6, h7, h8, h9, h10, h11, h12⟩ := hp
    refine ⟨mkMoodVector_range _ _ _ _ _ _, ?_, ?_, ?_, ?_, ?_, ?_⟩ <;> intro hn <;>
      simp only [reflect_updated_mood, mkMoodVector, hn, Option.getD_none]
    · exact clamp01_of_mem h1 h2
    · exact clamp01_of_mem h3 h4
    · exact clamp01_of_mem h5 h6
    · exact clamp01_of_mem h7 h8
    · exact clamp01_of_mem h9 h10
    · exact clamp01_of_mem h11 h12

/-- Witness for C9 at a concrete prior mood and a partial update that sets
only `joy` (to an out-of-range value, exercising the clamp). -/
theorem C9_mood_clamped_partial_update_witness :
    moodInRange (reflect_updated_mood ⟨1/2, 0, 1, 0, 0, 1/4⟩
      ⟨some 2, none, none, none, none, none⟩) ∧
    ((⟨some 2, none, none, none, none, none⟩ : MoodUpdate).fear = none →
      (reflect_updated_mood ⟨1/2, 0, 1, 0, 0, 1/4⟩
        ⟨some 2, none, none, none, none, none⟩).fear = (0 : ℚ)) := by
  have h := C9_mood_clamped_partial_update.2 ⟨1/2, 0, 1, 0, 0, 1/4⟩
    ⟨some 2, none, none, none, none, none⟩ (by norm_num [moodInRange])
  exact ⟨h.1, h.2.2.1⟩

/-- C10: updating the mood of a character id absent from the world state's
character-state map is a silent no-op: no error, and the entire world state is
returned unchanged. -/
theorem C10_unknown_mood_update_noop (ws : WorldState) (actor : String)
    (mood : MoodVector) (h : lookupChar ws.character_states actor = none) :
    update_character_mood ws actor mood = ws := by
  have hf : ws.character_states.find? (fun e => e.1 == actor) = none := by
    unfold lookupChar at h
    cases hf : ws.character_states.find? (fun e => e.1 == actor) with
    | none => rfl
    | some e => rw [hf] at h; simp at h
  unfold update_character_mood
  rw [hf]
  simp

/-- Witness for C10: a world state knowing only `"Alice"`, updated at
`"Bob"`. -/
theorem C10_unknown_mood_update_noop_witness :
    update_character_mood
      ⟨1, 4, "morning", "forest", ["Alice"], [("Alice", ⟨"town", zeroMood, []⟩)], ["e1"]⟩
      "Bob" ⟨1, 0, 0, 0, 0, 0⟩ =
      ⟨1, 4, "morning", "forest", ["Alice"], [("Alice", ⟨"town", zeroMood, []⟩)], ["e1"]⟩ :=
  C10_unknown_mood_update_noop _ "Bob" _ (by decide)

/-- C1: `get_recent_scene_summaries` returns, for every `count ≥ 1` on a
non-empty store, exactly the last `count` stored summaries (a suffix of the
store, oldest-first), each tagged with its scene number and joined with the
visible separator; and it returns the non-empty "no summaries" sentinel
whenever zero summaries exist or `count = 0`. -/
theorem C1_recent_scene_summaries (summaries : List (Nat × String)) (count : Nat) :
    ((summaries = [] ∨ count = 0) →
      get_recent_scene_summaries summaries count = noSummariesSentinel ∧
      noSummariesSentinel ≠ "") ∧
    (1 ≤ count → summaries ≠ [] →
      summaries.take (summaries.length - count) ++ pyLastSlice count summaries = summaries ∧
      (pyLastSlice count summaries).length = min count summaries.length ∧
      get_recent_scene_summaries summaries count =
        String.intercalate "\n\n---\n\n" ((pyLastSlice count summaries).map tagSceneSummary)) := by
  constructor
  · rintro (h | h)
    · subst h
      exact ⟨by simp [get_recent_scene_summaries], by decide⟩
    · subst h
      exact ⟨by simp [get_recent_scene_summaries], by decide⟩
  · intro hc hne
    have hc0 : count ≠ 0 := by omega
    have hcond : (summaries.isEmpty || count == 0) = false := by
      simp [List.isEmpty_eq_false, hne, hc0]
    refine ⟨?_, ?_, ?_⟩
    · unfold pyLastSlice
      rw [if_neg hc0]
      exact List.take_append_drop _ _
    · unfold pyLastSlice
      rw [if_neg hc0, List.length_drop]
      omega
    · unfold get_recent_scene_summaries
      simp only [hcond, Bool.false_eq_true, if_false]

/-- Witness for C1: the sentinel branch on a fresh store, and the join branch
on a three-summary store with `count = 2`. -/
theorem C1_recent_scene_summaries_witness :
    (get_recent_scene_summaries [] 3 = noSummariesSentinel ∧ noSummariesSentinel ≠ "") ∧
    ([(1, "a"), (2, "b"), (3, "c")].take ([(1, "a"), (2, "b"), (3, "c")].length - 2) ++
        pyLastSlice 2 [(1, "a"), (2, "b"), (3, "c")] = [(1, "a"), (2, "b"), (3, "c")] ∧
      (pyLastSlice 2 [(1, "a"), (2, "b"), (3, "c")]).length =
        min 2 [(1, "a"), (2, "b"), (3, "c")].length ∧
      get_recent_scene_summaries [(1, "a"), (2, "b"), (3, "c")] 2 =
        String.intercalate "\n\n---\n\n"
          ((pyLastSlice 2 [(1, "a"), (2, "b"), (3, "c")]).map tagSceneSummary)) :=
  ⟨(C1_recent_scene_summaries [] 3).1 (Or.inl rfl),
   (C1_recent_scene_summaries [(1, "a"), (2, "b"), (3, "c")] 2).2 (by norm_num) (by simp)⟩

/-- C2: when the generation-service call inside `apply_plan` fails, the
returned outcome is exactly `"{actor} attempts to {action}."` built from the
plan's action, the turn number is incremented by exactly one, relationships
are untouched, and the fallback line is appended (as most recent entry) to
the recent-events log by the `update_from_outcome` step of the same turn. -/
theorem C2_apply_plan_fallback (actor : String) (plan : Plan) (ws : WorldState)
    (rel : RelMap) (limit : Nat) :
    (apply_plan actor plan ws rel none).1 = actor ++ " attempts to " ++ plan.action ++ "." ∧
    (apply_plan actor plan ws rel none).2.2 = rel ∧
    (update_from_outcome (apply_plan actor plan ws rel none).2.1 limit
        (apply_plan actor plan ws rel none).1 none).turn_number = ws.turn_number + 1 ∧
    ∃ l, (update_from_outcome (apply_plan actor plan ws rel none).2.1 limit
        (apply_plan actor plan ws rel none).1 none).recent_events =
      l ++ [actor ++ " attempts to " ++ plan.action ++ "."] := by
  have h1 : apply_plan actor plan ws rel none =
      (actor ++ " attempts to " ++ plan.action ++ ".",
       { ws with turn_number := ws.turn_number + 1 }, rel) := rfl
  rw [h1]
  refine ⟨rfl, rfl, by simp [update_from_outcome], ?_⟩
  unfold update_from_outcome
  simp only []
  set out := actor ++ " attempts to " ++ plan.action ++ "." with hout
  by_cases hlim : limit < (ws.recent_events ++ [out]).length
  · rw [if_pos hlim]
    unfold pyLastSlice
    by_cases h0 : limit = 0
    · rw [if_pos h0]
      exact ⟨ws.recent_events, rfl⟩
    · rw [if_neg h0]
      have hk : (ws.recent_events ++ [out]).length - limit ≤ ws.recent_events.length := by
        rw [List.length_append, List.length_singleton]
        omega
      rw [List.drop_append_of_le_length hk]
      exact ⟨_, rfl⟩
  · rw [if_neg hlim]
    exact ⟨ws.recent_events, rfl⟩

/-- C4 counterexample: with a scene log of fewer than 3 entries the claim
demands `false` regardless of turn number, but at the hard cap (turn 20 of a
20-turn scene, free mode, empty log, service answering "no")
`judge_scene_end` returns `true`. -/
theorem C4_counterexample :
    (judge_scene_end ⟨false, none, [], [], [], true, 20, 3, [], 10⟩
      ⟨1, 20, "morning", "forest", [], [], []⟩ [] (some "no")).1 = true := by
  decide

/-- C4 (amended): for every scene log with fewer than 3 entries,
`judge_scene_end` returns `false` regardless of the service response, provided
the script-mode all-beats-completed check does not fire and the turn number is
still below the hard cap. -/
theorem C4_short_log_continues (ag : AgentState) (ws : WorldState)
    (sceneLog : List String) (svc : Option String)
    (hlog : sceneLog.length < 3)
    (hscript : script_scene_done ag ws.scene_number = false)
    (hturn : ws.turn_number < ag.max_scene_turns) :
    (judge_scene_end ag ws sceneLog svc).1 = false := by
  unfold judge_scene_end
  rw [if_neg (by simp [hscript]), if_neg (by omega), if_pos hlog]

/-- Witness for C4 at a concrete mid-scene state with a one-entry log and a
service that answers "yes". -/
theorem C4_short_log_continues_witness :
    (judge_scene_end ⟨false, none, [], [], [], true, 20, 3, [], 10⟩
      ⟨1, 2, "morning", "forest", [], [], []⟩ ["a"] (some "yes")).1 = false :=
  C4_short_log_continues _ _ _ _ (by decide) (by decide) (by decide)

/-- C5 counterexample: with a free-mode agent, an empty event pool and a
configured service, a service response that strips to the empty string makes
`generate_event` return the empty string, contradicting the claim that every
path returns a non-empty string. -/
theorem C5_counterexample :
    (generate_event ⟨false, none, [], [], [], true, 20, 3, [], 10⟩ (some "") 0 0).1 = "" :=
  rfl

theorem desc_or_ne (d : Option String) (f : String) (hf : f ≠ "") : desc_or d f ≠ "" := by
  cases d with
  | none => simp only [desc_or]; exact hf
  | some s =>
    by_cases hs : s = ""
    · have hd : desc_or (some s) f = f := by simp [desc_or, hs]
      rw [hd]; exact hf
    · have hd : desc_or (some s) f = s := by simp [desc_or, hs]
      rw [hd]; exact hs

theorem scripted_event_ne (ag : AgentState) (r : String × AgentState)
    (h : scripted_event ag = some r) : r.1 ≠ "" := by
  unfold scripted_event at h
  split at h
  · split at h
    · split at h
      · split at h
        · cases h
        · split at h
          · injection h with h2
            rw [← h2]
            exact desc_or_ne _ _ (by decide)
          · cases h
      · cases h
    · cases h
  · cases h

theorem fallback_pick_ne (n : Nat) :
    ((fallback_events.get? (n % fallback_events.length)).getD "") ≠ "" := by
  have hmod : n % fallback_events.length < fallback_events.length :=
    Nat.mod_lt _ (by decide)
  cases hg : fallback_events.get? (n % fallback_events.length) with
  | none =>
    rw [List.get?_eq_none] at hg
    omega
  | some s =>
    have hmem : s ∈ fallback_events := List.get?_mem hg
    have hall : ∀ x ∈ fallback_events, x ≠ "" := by decide
    simpa using hall s hmem

/-- C5 (amended): `generate_event` tries, in priority order, the scripted
beat's triggered event from the static pool (marking the beat completed and
clearing it) when found there, then a uniform-random pick from the static
pool if non-empty, then the generation service — whose failure yields a fixed
generic atmospheric sentence, and only when no service is configured a
uniform-random pick from the small built-in list.  Every path returns a
non-empty string except the service-success path, which returns the response
stripped of whitespace and quotes and is empty exactly when that stripped
response is empty. -/
theorem C5_generate_event_nonempty (ag : AgentState) (svc : Option String)
    (poolIdx fallbackIdx : Nat) :
    (generate_event ag svc poolIdx fallbackIdx).1 ≠ "" ∨
    (ag.world_events_pool.isEmpty = true ∧ ag.llm_present = true ∧
      scripted_event ag = none ∧
      ∃ s, svc = some s ∧ stripQuoteChars (pyStrip s) = "" ∧
        (generate_event ag svc poolIdx fallbackIdx).1 = "") := by
  cases hs : scripted_event ag with
  | some r =>
    left
    have hg : generate_event ag svc poolIdx fallbackIdx = r := by
      simp only [generate_event, hs]
    rw [hg]
    exact scripted_event_ne ag r hs
  | none =>
    by_cases hp : ag.world_events_pool.isEmpty = true
    · by_cases hl : ag.llm_present = true
      · cases hsvc : svc with
        | none =>
          left
          have hg : generate_event ag none poolIdx fallbackIdx =
              ("The environment shifts slightly, creating an unusual atmosphere.", ag) := by
            simp only [generate_event, hs, hp, hl, Bool.not_true, Bool.false_eq_true,
              if_false, if_true]
          rw [hg]
          exact (by decide :
            ("The environment shifts slightly, creating an unusual atmosphere." : String) ≠ "")
        | some s =>
          have hg : generate_event ag (some s) poolIdx fallbackIdx =
              (stripQuoteChars (pyStrip s), ag) := by
            simp only [generate_event, hs, hp, hl, Bool.not_true, Bool.false_eq_true,
              if_false, if_true]
          by_cases he : stripQuoteChars (pyStrip s) = ""
          · right
            exact ⟨hp, hl, rfl, s, rfl, he, by rw [hg]; exact he⟩
          · left
            rw [hg]
            exact he
      · left
        have hl2 : ag.llm_present = false := by
          cases h : ag.llm_present
          · rfl
          · exact absurd h hl
        have hg : generate_event ag svc poolIdx fallbackIdx =
            ((fallback_events.get? (fallbackIdx % fallback_events.length)).getD "", ag) := by
          simp only [generate_event, hs, hp, hl2, Bool.not_true, Bool.false_eq_true,
            if_false]
        rw [hg]
        exact fallback_pick_ne fallbackIdx
    · left
      have hp2 : ag.world_events_pool.isEmpty = false := by
        cases h : ag.world_events_pool.isEmpty
        · rfl
        · exact absurd h hp
      have hg : generate_event ag svc poolIdx fallbackIdx =
          (desc_or ((ag.world_events_pool.get? (poolIdx % ag.world_events_pool.length)).getD
              ⟨none, none⟩).description "Something unexpected happens.", ag) := by
        simp only [generate_event, hs, hp2, Bool.not_false, if_true]
      rw [hg]
      exact desc_or_ne _ _ (by decide)

/-- C6 counterexample: with no active characters and a failing service,
`decide_next_actor` returns `none` (the Python `None, None`), contradicting
the claim that it always returns an active character identifier. -/
theorem C6_counterexample :
    decide_next_actor ⟨false, none, [], [], [], true, 20, 3, [], 10⟩
      ⟨1, 0, "m", "d", [], [], []⟩ [] none (1/2) = none :=
  rfl

theorem scripted_required_actor_mem (ag : AgentState) (active : List String)
    (ra : String) (h : scripted_required_actor ag active = some ra) : ra ∈ active := by
  unfold scripted_required_actor at h
  split at h
  · split at h
    · split at h
      · split at h
        · rename_i hcontains
          injection h with h2
          subst h2
          exact List.mem_of_elem_eq_true hcontains
        · cases h
      · cases h
    · cases h
  · cases h

theorem rouletteGo_mem (r : ℚ) (c : String) :
    ∀ (l : List (String × ℚ)) (cum : ℚ), rouletteGo r cum l = some c →
      c ∈ l.map Prod.fst := by
  intro l
  induction l with
  | nil => intro cum h; cases h
  | cons p t ih =>
    intro cum h
    unfold rouletteGo at h
    split at h
    · injection h with h2
      subst h2
      exact List.mem_cons_self _ _
    · exact List.mem_cons_of_mem _ (ih _ h)

theorem weighted_fallback_mem (active : List String)
    (tmpl : List (String × CharTemplate)) (r : ℚ) (hne : active ≠ [])
    (htot : total_activity_weight tmpl active ≠ 0) :
    ∃ c, weighted_fallback active tmpl r = some c ∧ c ∈ active := by
  cases active with
  | nil => exact absurd rfl hne
  | cons a0 rest =>
    have hw : weighted_fallback (a0 :: rest) tmpl r =
        some ((rouletteGo r 0 ((a0 :: rest).map
          (fun c => (c, activityWeight tmpl c / total_activity_weight tmpl (a0 :: rest))))).getD a0) := by
      simp only [weighted_fallback]
      rw [if_neg htot]
    cases hr : rouletteGo r 0 ((a0 :: rest).map
        (fun c => (c, activityWeight tmpl c / total_activity_weight tmpl (a0 :: rest)))) with
    | none =>
      refine ⟨a0, ?_, List.mem_cons_self a0 rest⟩
      rw [hw, hr]
      rfl
    | some c =>
      have hmem := rouletteGo_mem r c _ 0 hr
      rw [List.map_map] at hmem
      have hid : (Prod.fst ∘ fun c => (c, activityWeight tmpl c /
          total_activity_weight tmpl (a0 :: rest))) = id := rfl
      rw [hid, List.map_id] at hmem
      refine ⟨c, ?_, hmem⟩
      rw [hw, hr]
      rfl

/-- C6 (amended): whenever the generation service fails, `decide_next_actor`
returns one of the currently active character identifiers provided at least
one character is active and the active characters' total activity weight is
non-zero (with no active characters it returns the null pair, and a zero
total weight makes the Python normalisation raise);
`choose_pov_character_for_scene` on a failing service returns an active
identifier whenever any character is active, and on an empty active list
returns the "Narrator" sentinel with the all-zero (neutral) mood, empty goals
and the fixed persona "Objective observer". -/
theorem C6_fallback_selection :
    (∀ (ag : AgentState) (ws : WorldState) (tmpl : List (String × CharTemplate)) (r : ℚ),
      ws.active_characters ≠ [] →
      total_activity_weight tmpl ws.active_characters ≠ 0 →
      ∃ c st, decide_next_actor ag ws tmpl none r = some (c, st) ∧
        c ∈ ws.active_characters) ∧
    (∀ (active : List String) (tmpl : List (String × CharTemplate))
        (cs : List (String × CharacterState)) (idx : Nat), active ≠ [] →
      (choose_pov_character_for_scene active tmpl cs none idx).1 ∈ active) ∧
    (∀ (tmpl : List (String × CharTemplate)) (cs : List (String × CharacterState))
        (idx : Nat),
      choose_pov_character_for_scene [] tmpl cs none idx =
        ("Narrator", ⟨"Objective observer", [], zeroMood⟩)) := by
  refine ⟨?_, ?_, ?_⟩
  · intro ag ws tmpl r hne htot
    have hie : ws.active_characters.isEmpty = false := by
      cases h : ws.active_characters with
      | nil => exact absurd h hne
      | cons x t => rfl
    cases hscr : scripted_required_actor ag ws.active_characters with
    | some ra =>
      refine ⟨ra, lookupChar ws.character_states ra, ?_,
        scripted_required_actor_mem _ _ _ hscr⟩
      simp only [decide_next_actor, hie, Bool.false_eq_true, if_false, hscr]
    | none =>
      obtain ⟨c, hwf, hcm⟩ := weighted_fallback_mem ws.active_characters tmpl r hne htot
      refine ⟨c, lookupChar ws.character_states c, ?_, hcm⟩
      simp only [decide_next_actor, hie, Bool.false_eq_true, if_false, hscr, hwf]
  · intro active tmpl cs idx hne
    cases active with
    | nil => exact absurd rfl hne
    | cons a0 rest =>
      cases hg : (a0 :: rest).get? (idx % (a0 :: rest).length) with
      | none =>
        simp only [choose_pov_character_for_scene, hg, Option.getD_none]
        exact List.mem_cons_self a0 rest
      | some c =>
        simp only [choose_pov_character_for_scene, hg, Option.getD_some]
        exact List.get?_mem hg
  · intro tmpl cs idx
    rfl

/-- Witness for C6 at concrete states: two active characters with unit
activity weights for actor selection, one active character for POV
selection. -/
theorem C6_fallback_selection_witness :
    (∃ c st, decide_next_actor ⟨false, none, [], [], [], true, 20, 3, [], 10⟩
        ⟨1, 0, "m", "d", ["Alice", "Bob"], [], []⟩ [] none (1/2) = some (c, st) ∧
      c ∈ (⟨1, 0, "m", "d", ["Alice", "Bob"], [], []⟩ : WorldState).active_characters) ∧
    (choose_pov_character_for_scene ["Alice"] [] [] none 0).1 ∈ ["Alice"] :=
  ⟨C6_fallback_selection.1 ⟨false, none, [], [], [], true, 20, 3, [], 10⟩
      ⟨1, 0, "m", "d", ["Alice", "Bob"], [], []⟩ [] (1/2) (by decide)
      (by norm_num [total_activity_weight, activityWeight, List.find?]),
   C6_fallback_selection.2.1 ["Alice"] [] [] 0 (by decide)⟩

theorem findTarget_target (B : String) (cs : List (String × CharacterState))
    (hB : B ≠ "") (hBstate : (cs.find? (fun e => e.1 == B)).isSome = true) :
    findTarget [("target", B)] cs = some B := by
  have h1 : lookupDetail [("target", B)] "target_char_id" = none := rfl
  have h2 : lookupDetail [("target", B)] "target_character" = none := rfl
  have h3 : lookupDetail [("target", B)] "recipient" = none := rfl
  have h4 : lookupDetail [("target", B)] "target" = some B := rfl
  unfold findTarget target_char_keys
  simp only [findTargetGo, h1, h2, h3, h4]
  rw [if_neg hB]
  simp [hBstate]

theorem interp_helps (A B : String) (fo : String) (hAB : A ≠ B)
    (hhelps : strContains (lowerStr fo) "helps" = true) :
    interpret_outcome_for_relationship_update A fo [A, B] =
      [⟨A, B, 1/20, 1/50⟩, ⟨B, A, 1/20 * (4/5), 1/50 * (4/5)⟩] := by
  have hpos : positive_verbs.any (fun v => strContains (lowerStr fo) v) = true := by
    simp [positive_verbs, hhelps]
  have hfind : List.find? (fun c => c != A) [A, B] = some B := by
    have h1 : (A != A) = false := by simp
    have h2 : (B != A) = true := by
      simp only [bne_iff_ne, ne_eq]
      exact fun h => hAB h.symm
    simp [List.find?, h1, h2]
  unfold interpret_outcome_for_relationship_update
  rw [if_neg (by simp : ¬ ([A, B].length < 2))]
  simp only [hpos, if_true]
  rw [if_pos (by norm_num : (1/20 : ℚ) ≠ 0 ∨ (1/50 : ℚ) ≠ 0)]
  simp only [hfind]

theorem applyAdjustments_cons_ok (m : RelMap) (adj : RelAdjustment)
    (rest : List RelAdjustment) (r : RelationshipState) (m2 : RelMap)
    (hA : adj.char_a ≠ "") (hB : adj.char_b ≠ "")
    (h : adjust_state m adj.char_a adj.char_b adj.trust_delta adj.affinity_delta none =
      .ok (r, m2)) :
    applyAdjustments m (adj :: rest) = applyAdjustments m2 rest := by
  have hcond : (adj.char_a ≠ "" ∧ adj.char_b ≠ "") = True := by simp [hA, hB]
  simp only [applyAdjustments, hcond, if_true, h]

theorem apply_plan_helps_rel (ws : WorldState) (rel : RelMap) (A B : String)
    (plan : Plan) (out : String)
    (hAB : A ≠ B) (hA : A ≠ "") (hB : B ≠ "")
    (hdetails : plan.details = [("target", B)])
    (hBstate : (ws.character_states.find? (fun e => e.1 == B)).isSome = true)
    (hhelps : strContains (lowerStr (stripQuoteChars (pyStrip out))) "helps" = true) :
    (apply_plan A plan ws rel (some out)).2.2 =
      setRel (setRel rel A B
          ⟨clamp01 ((lookupRel rel A B).trust + 1/20),
           clampPM1 ((lookupRel rel A B).affinity + 1/50),
           (lookupRel rel A B).status⟩) B A
        ⟨clamp01 (clamp01 ((lookupRel rel A B).trust + 1/20) + 1/20 * (4/5)),
         clampPM1 (clampPM1 ((lookupRel rel A B).affinity + 1/50) + 1/50 * (4/5)),
         (lookupRel rel A B).status⟩ := by
  have hft : findTarget plan.details ws.character_states = some B := by
    rw [hdetails]
    exact findTarget_target B _ hB hBstate
  have hap : (apply_plan A plan ws rel (some out)).2.2 =
      applyAdjustments rel (interpret_outcome_for_relationship_update A
        (stripQuoteChars (pyStrip out)) [A, B]) := by
    simp only [apply_plan, hft]
    rw [if_neg (show ¬ B = A from fun h => hAB h.symm)]
    rw [if_pos (show 2 ≤ ([A, B] : List String).length by simp)]
  have had1 : adjust_state rel A B (1/20) (1/50) none =
      .ok (⟨clamp01 ((lookupRel rel A B).trust + 1/20),
            clampPM1 ((lookupRel rel A B).affinity + 1/50),
            (lookupRel rel A B).status⟩,
           setRel rel A B
            ⟨clamp01 ((lookupRel rel A B).trust + 1/20),
             clampPM1 ((lookupRel rel A B).affinity + 1/50),
             (lookupRel rel A B).status⟩) := by
    simp [adjust_state, hAB]
  have hcur : lookupRel (setRel rel A B
      ⟨clamp01 ((lookupRel rel A B).trust + 1/20),
       clampPM1 ((lookupRel rel A B).affinity + 1/50),
       (lookupRel rel A B).status⟩) B A =
      ⟨clamp01 ((lookupRel rel A B).trust + 1/20),
       clampPM1 ((lookupRel rel A B).affinity + 1/50),
       (lookupRel rel A B).status⟩ :=
    lookupRel_set_swap rel A B _
  have had2 : adjust_state (setRel rel A B
      ⟨clamp01 ((lookupRel rel A B).trust + 1/20),
       clampPM1 ((lookupRel rel A B).affinity + 1/50),
       (lookupRel rel A B).status⟩) B A (1/20 * (4/5)) (1/50 * (4/5)) none =
      .ok (⟨clamp01 (clamp01 ((lookupRel rel A B).trust + 1/20) + 1/20 * (4/5)),
            clampPM1 (clampPM1 ((lookupRel rel A B).affinity + 1/50) + 1/50 * (4/5)),
            (lookupRel rel A B).status⟩,
           setRel (setRel rel A B
            ⟨clamp01 ((lookupRel rel A B).trust + 1/20),
             clampPM1 ((lookupRel rel A B).affinity + 1/50),
             (lookupRel rel A B).status⟩) B A
            ⟨clamp01 (clamp01 ((lookupRel rel A B).trust + 1/20) + 1/20 * (4/5)),
             clampPM1 (clampPM1 ((lookupRel rel A B).affinity + 1/50) + 1/50 * (4/5)),
             (lookupRel rel A B).status⟩) := by
    simp only [adjust_state]
    rw [if_neg (show ¬ B = A from fun h => hAB h.symm), hcur]
    rfl
  rw [hap, interp_helps A B _ hAB hhelps,
      applyAdjustments_cons_ok rel _ _ _ _ hA hB had1,
      applyAdjustments_cons_ok _ _ _ _ _ hB hA had2]
  rfl

theorem lt_clamp01 {t x : ℚ} (h1 : t < 1) (h2 : t < x) : t < clamp01 x :=
  lt_min h1 (lt_of_lt_of_le h2 (le_max_right 0 x))

theorem trust_strict (t : ℚ) (h0 : 0 ≤ t) (h1 : t < 1) :
    t < clamp01 (clamp01 (t + 1/20) + 1/20 * (4/5)) := by
  apply lt_clamp01 h1
  have hin : max 0 (t + 1/20) = t + 1/20 := max_eq_right (by linarith)
  unfold clamp01
  rw [hin]
  rcases le_total (t + 1/20) 1 with hc | hc
  · rw [min_eq_right hc]
    linarith
  · rw [min_eq_left hc]
    linarith

/-- C3 counterexample: with the pre-call trust already at the 1.0 cap, a
successful "helps" outcome leaves `get_state(A, B).trust` equal to (not
strictly greater than) its pre-call value, because `adjust_state` clamps
trust at 1. -/
theorem C3_counterexample :
    ¬ ((lookupRel (apply_plan "Alice" ⟨"help", [("target", "Bob")], "kind"⟩
        ⟨1, 0, "m", "d", ["Alice", "Bob"],
         [("Alice", ⟨"town", zeroMood, []⟩), ("Bob", ⟨"town", zeroMood, []⟩)], []⟩
        [(("Alice", "Bob"), ⟨1, 0, "neutral"⟩)] (some "Alice helps Bob.")).2.2
        "Alice" "Bob").trust >
      (lookupRel [(("Alice", "Bob"), ⟨1, 0, "neutral"⟩)] "Alice" "Bob").trust) := by
  have h := apply_plan_helps_rel
    ⟨1, 0, "m", "d", ["Alice", "Bob"],
     [("Alice", ⟨"town", zeroMood, []⟩), ("Bob", ⟨"town", zeroMood, []⟩)], []⟩
    [(("Alice", "Bob"), ⟨1, 0, "neutral"⟩)] "Alice" "Bob"
    ⟨"help", [("target", "Bob")], "kind"⟩ "Alice helps Bob."
    (by decide) (by decide) (by decide) rfl (by decide) (by decide)
  rw [h, lookupRel_set_swap]
  have hlr : lookupRel [(("Alice", "Bob"), ⟨1, 0, "neutral"⟩)] "Alice" "Bob" =
      ⟨1, 0, "neutral"⟩ := rfl
  rw [hlr]
  simp only [not_lt]
  show clamp01 (clamp01 ((1 : ℚ) + 1/20) + 1/20 * (4/5)) ≤ 1
  norm_num [clamp01, min_def, max_def]

/-- C3 (amended): when two distinct characters A and B are both active at the
same location and `apply_plan` with a plan targeting B produces an outcome
containing "helps", then afterwards `getState(A, B).trust` is strictly
greater than its pre-call value provided the pre-call trust is below the 1.0
clamp; the heuristic emits the A-to-B deltas (+0.05 trust, +0.02 affinity)
together with the B-to-A deltas at 80% of that magnitude, so the A-to-B
deltas strictly exceed the B-to-A deltas in magnitude. -/
theorem C3_help_raises_trust (ws : WorldState) (rel : RelMap) (A B loc : String)
    (plan : Plan) (out : String)
    (hAB : A ≠ B) (hA : A ≠ "") (hB : B ≠ "")
    (hAmem : A ∈ ws.active_characters) (hBmem : B ∈ ws.active_characters)
    (hAloc : ∃ sA, lookupChar ws.character_states A = some sA ∧ sA.location = loc)
    (hBloc : ∃ sB, lookupChar ws.character_states B = some sB ∧ sB.location = loc)
    (haction : plan.action = "help")
    (hdetails : plan.details = [("target", B)])
    (hhelps : strContains (lowerStr (stripQuoteChars (pyStrip out))) "helps" = true)
    (hwf : WellFormedRel rel)
    (htrust : (lookupRel rel A B).trust < 1) :
    (lookupRel (apply_plan A plan ws rel (some out)).2.2 A B).trust >
      (lookupRel rel A B).trust ∧
    interpret_outcome_for_relationship_update A (stripQuoteChars (pyStrip out)) [A, B] =
      [⟨A, B, 1/20, 1/50⟩, ⟨B, A, 1/20 * (4/5), 1/50 * (4/5)⟩] ∧
    |(1/20 : ℚ) * (4/5)| < |(1/20 : ℚ)| ∧ |(1/50 : ℚ) * (4/5)| < |(1/50 : ℚ)| := by
  have hBstate : (ws.character_states.find? (fun e => e.1 == B)).isSome = true := by
    obtain ⟨sB, hsB, _⟩ := hBloc
    unfold lookupChar at hsB
    cases hf : ws.character_states.find? (fun e => e.1 == B) with
    | none => rw [hf] at hsB; simp at hsB
    | some e => rfl
  have h := apply_plan_helps_rel ws rel A B plan out hAB hA hB hdetails hBstate hhelps
  refine ⟨?_, interp_helps A B _ hAB hhelps, ?_, ?_⟩
  · rw [h, lookupRel_set_swap]
    obtain ⟨ht0, ht1, _, _⟩ := lookupRel_range hwf A B
    exact trust_strict (lookupRel rel A B).trust ht0 htrust
  · rw [abs_of_pos (by norm_num), abs_of_pos (by norm_num)]
    norm_num
  · rw [abs_of_pos (by norm_num), abs_of_pos (by norm_num)]
    norm_num

/-- Witness for C3 at concrete inputs: a fresh relationship store (pre-call
trust 0.5), Alice helping Bob at the same location. -/
theorem C3_help_raises_trust_witness :
    (lookupRel (apply_plan "Alice" ⟨"help", [("target", "Bob")], "kind"⟩
        ⟨1, 0, "m", "d", ["Alice", "Bob"],
         [("Alice", ⟨"town", zeroMood, []⟩), ("Bob", ⟨"town", zeroMood, []⟩)], []⟩
        [] (some "Alice helps Bob.")).2.2 "Alice" "Bob").trust >
      (lookupRel [] "Alice" "Bob").trust ∧
    interpret_outcome_for_relationship_update "Alice"
        (stripQuoteChars (pyStrip "Alice helps Bob.")) ["Alice", "Bob"] =
      [⟨"Alice", "Bob", 1/20, 1/50⟩, ⟨"Bob", "Alice", 1/20 * (4/5), 1/50 * (4/5)⟩] ∧
    |(1/20 : ℚ) * (4/5)| < |(1/20 : ℚ)| ∧ |(1/50 : ℚ) * (4/5)| < |(1/50 : ℚ)| :=
  C3_help_raises_trust
    ⟨1, 0, "m", "d", ["Alice", "Bob"],
     [("Alice", ⟨"town", zeroMood, []⟩), ("Bob", ⟨"town", zeroMood, []⟩)], []⟩
    [] "Alice" "Bob" "town" ⟨"help", [("target", "Bob")], "kind"⟩ "Alice helps Bob."
    (by decide) (by decide) (by decide) (by decide) (by decide)
    ⟨⟨"town", zeroMood, []⟩, rfl, rfl⟩ ⟨⟨"town", zeroMood, []⟩, rfl, rfl⟩
    rfl rfl (by decide)
    (by intro e he; simp at he)
    (by norm_num [lookupRel, List.find?])

end FicWorld
